import Mathlib

/-! Shallow embedding of the playsafe-app CRUD REST API (Express + PostgreSQL)
and its Prometheus metrics middleware.

The five tables (daycare, classroom, parent, child, enrollment) are modelled
as lists of rows; the SQL statements issued by each route handler are
translated into the corresponding list operations, including the
schema-declared foreign-key actions (`ON DELETE CASCADE`, `ON DELETE SET NULL`)
that the storage engine applies when rows are deleted.

Every handler is a function `DB → ... × DB` returning the response together
with the database state after the statements it issued; handlers that issue
only `SELECT` statements return the state unchanged.

JavaScript truthiness on request-body fields (`!name`, `!daycare_id`, ...)
is modelled by `≠ ""` for string fields and `≠ 0` for integer fields, which
is exactly the falsy/truthy split for the JSON values those handlers read.
-/

namespace PlaySafe

/-- Row of the `daycare` table: id SERIAL PRIMARY KEY, name, address, phone, email. -/
structure Daycare where
  id : Nat
  name : String
  address : String
  phone : String
  email : String
deriving Repr, DecidableEq

/-- Row of the `classroom` table: `daycare_id INT REFERENCES daycare(id) ON DELETE CASCADE`
(nullable, hence `Option`). -/
structure Classroom where
  id : Nat
  name : String
  daycare_id : Option Nat
deriving Repr, DecidableEq

/-- Row of the `parent` table. -/
structure Parent where
  id : Nat
  name : String
  phone : String
  email : String
deriving Repr, DecidableEq

/-- Row of the `child` table: `classroom_id INT REFERENCES classroom(id) ON DELETE SET NULL`,
`daycare_id INT REFERENCES daycare(id) ON DELETE CASCADE`. -/
structure Child where
  id : Nat
  name : String
  date_of_birth : String
  classroom_id : Option Nat
  daycare_id : Option Nat
deriving Repr, DecidableEq

/-- Row of the `enrollment` table: `child_id` / `parent_id` both
`INT REFERENCES ... ON DELETE CASCADE` (nullable). -/
structure Enrollment where
  id : Nat
  child_id : Option Nat
  parent_id : Option Nat
deriving Repr, DecidableEq

/-- The whole relational state: one list of rows per table. -/
structure DB where
  daycares : List Daycare
  classrooms : List Classroom
  parents : List Parent
  children : List Child
  enrollments : List Enrollment
deriving Repr, DecidableEq

/-- The empty database. -/
def emptyDB : DB := ⟨[], [], [], [], []⟩

/-- The seed data inserted by the SQL script shipped with the repository
(SERIAL ids start at 1 in insertion order). -/
def seedDB : DB where
  daycares :=
    [⟨1, "Happy Kids Daycare", "123 Rainbow Street", "555-111-2222", "contact@happykids.com"⟩,
     ⟨2, "Little Stars Academy", "45 Sunshine Ave", "555-333-4444", "info@littlestars.com"⟩]
  classrooms :=
    [⟨1, "Blue Butterflies", some 1⟩, ⟨2, "Red Rockets", some 1⟩,
     ⟨3, "Green Giraffes", some 2⟩, ⟨4, "Yellow Lions", some 2⟩]
  parents :=
    [⟨1, "Alice Johnson", "555-123-4567", "alice.johnson@email.com"⟩,
     ⟨2, "Brian Smith", "555-234-5678", "brian.smith@email.com"⟩,
     ⟨3, "Catherine Lee", "555-345-6789", "catherine.lee@email.com"⟩,
     ⟨4, "David Brown", "555-456-7890", "david.brown@email.com"⟩]
  children :=
    [⟨1, "Emily Johnson", "2020-05-12", some 1, some 1⟩,
     ⟨2, "Liam Smith", "2019-08-03", some 2, some 1⟩,
     ⟨3, "Olivia Lee", "2021-02-25", some 3, some 2⟩,
     ⟨4, "Noah Brown", "2020-11-17", some 4, some 2⟩,
     ⟨5, "Sophia Smith", "2022-01-30", some 2, some 1⟩]
  enrollments :=
    [⟨1, some 1, some 1⟩, ⟨2, some 2, some 2⟩, ⟨3, some 3, some 3⟩,
     ⟨4, some 4, some 4⟩, ⟨5, some 5, some 2⟩]

/-- Sort as `ORDER BY id ASC`: sort the selected rows by ascending value of the key `f`. -/
def orderByIdAsc {ρ : Type} (f : ρ → Nat) (l : List ρ) : List ρ :=
  l.insertionSort (fun a b => f a ≤ f b)

/-- Response of a list endpoint: `{<entity>s_count, data}` (the count is the
result of the `SELECT COUNT(*)` statement, the data that of `SELECT * ... ORDER BY id ASC`). -/
structure ListResp (ρ : Type) where
  count : Nat
  data : List ρ
deriving Repr, DecidableEq

/-- Response of a get-by-id endpoint: HTTP code plus the `data` row array
(empty on 404). -/
structure GetResp (ρ : Type) where
  code : Nat
  data : List ρ
deriving Repr, DecidableEq

/-- Response of a delete endpoint: HTTP code plus the `status` field of the body. -/
structure DeleteResp where
  code : Nat
  status : String
deriving Repr, DecidableEq

/-- Response of an update endpoint: HTTP code, `status` field, and the
`updated_data` value (`none` when the field is absent/undefined). -/
structure UpdateResp (ρ : Type) where
  code : Nat
  status : String
  updated_data : Option ρ
deriving Repr, DecidableEq

/-! Section: GET /health -/

/-- Handler `app.get('/health')`: always 200 `{status:"UP"}`; no database statement. -/
def health (db : DB) : (Nat × String) × DB := ((200, "UP"), db)

/-! Section: Daycare endpoints -/

/-- Handler for `GET /get_daycares`: `SELECT COUNT(*)`, then `SELECT * FROM daycare ORDER BY id ASC`
(`parseInt` of the decimal count string gives back the row count). -/
def get_daycares (db : DB) : ListResp Daycare × DB :=
  ((⟨db.daycares.length, orderByIdAsc (·.id) db.daycares⟩ : ListResp Daycare), db)

/-- Handler for `GET /get_daycare/:id`: `SELECT * FROM daycare WHERE id = $1`; 404 when no row. -/
def get_daycare_by_id (db : DB) (i : Nat) : GetResp Daycare × DB :=
  let rows := db.daycares.filter (fun d => d.id == i)
  if rows.length == 0 then ((⟨404, []⟩ : GetResp Daycare), db)
  else ((⟨200, rows⟩ : GetResp Daycare), db)

/-- Handler for `DELETE /delete_daycare/:id`: `DELETE FROM daycare WHERE id = $1`; 404 when
`rowCount` is 0.  The storage engine applies the declared actions: classrooms and
children of the daycare are cascade-deleted; children of a cascade-deleted
classroom that survive have `classroom_id` set to null; enrollments of a
cascade-deleted child are cascade-deleted. -/
def delete_daycare (db : DB) (i : Nat) : DeleteResp × DB :=
  let rowCount := (db.daycares.filter (fun d => d.id == i)).length
  if rowCount == 0 then (⟨404, "not_found"⟩, db)
  else
    let removedClassroomIds := (db.classrooms.filter (fun c => c.daycare_id == some i)).map (·.id)
    let removedChildIds := (db.children.filter (fun c => c.daycare_id == some i)).map (·.id)
    (⟨200, "success"⟩,
      { daycares := db.daycares.filter (fun d => !(d.id == i))
        classrooms := db.classrooms.filter (fun c => !(c.daycare_id == some i))
        parents := db.parents
        children := (db.children.filter (fun c => !(c.daycare_id == some i))).map
          (fun c => match c.classroom_id with
            | some cid =>
                if removedClassroomIds.contains cid then { c with classroom_id := none } else c
            | none => c)
        enrollments := db.enrollments.filter (fun e =>
          match e.child_id with
          | some cid => !(removedChildIds.contains cid)
          | none => true) })

/-- Request body read by `PUT /update_daycare/:id`. -/
structure DaycareBody where
  name : String
  address : String
  phone : String
  email : String
deriving Repr, DecidableEq

/-- The handler's presence check `if (!name || !address || !phone || !email)`:
all four fields must be truthy. -/
def DaycareBody.valid (b : DaycareBody) : Bool :=
  b.name != "" && b.address != "" && b.phone != "" && b.email != ""

/-- Handler for `PUT /update_daycare/:id`: 400 when a required field is falsy; otherwise
`UPDATE daycare SET ... WHERE id = $5 RETURNING *`; 404 when `rowCount` is 0,
else 200 with `updated_data = result.rows[0]`. -/
def update_daycare (db : DB) (i : Nat) (b : DaycareBody) : UpdateResp Daycare × DB :=
  if !b.valid then ((⟨400, "error", none⟩ : UpdateResp Daycare), db)
  else
    let rowCount := (db.daycares.filter (fun d => d.id == i)).length
    if rowCount == 0 then ((⟨404, "not_found", none⟩ : UpdateResp Daycare), db)
    else
      let newRows := db.daycares.map (fun d =>
        if d.id == i then
          { d with name := b.name, address := b.address, phone := b.phone, email := b.email }
        else d)
      ((⟨200, "success", (newRows.filter (fun d => d.id == i)).head?⟩ : UpdateResp Daycare),
        { db with daycares := newRows })

/-! Section: Classroom endpoints -/

/-- Handler for `GET /get_classrooms`. -/
def get_classrooms (db : DB) : ListResp Classroom × DB :=
  ((⟨db.classrooms.length, orderByIdAsc (·.id) db.classrooms⟩ : ListResp Classroom), db)

/-- Handler for `GET /get_classroom/:id`. -/
def get_classroom_by_id (db : DB) (i : Nat) : GetResp Classroom × DB :=
  let rows := db.classrooms.filter (fun c => c.id == i)
  if rows.length == 0 then ((⟨404, []⟩ : GetResp Classroom), db)
  else ((⟨200, rows⟩ : GetResp Classroom), db)

/-- Handler for `DELETE /delete_classroom/:id`: 404 when `rowCount` is 0; the engine sets
`classroom_id` to null on the children of the deleted classroom (`ON DELETE SET NULL`). -/
def delete_classroom (db : DB) (i : Nat) : DeleteResp × DB :=
  let rowCount := (db.classrooms.filter (fun c => c.id == i)).length
  if rowCount == 0 then (⟨404, "not_found"⟩, db)
  else
    (⟨200, "success"⟩,
      { db with
        classrooms := db.classrooms.filter (fun c => !(c.id == i))
        children := db.children.map (fun c =>
          if c.classroom_id == some i then { c with classroom_id := none } else c) })

/-- Request body read by `PUT /update_classroom/:id`. -/
structure ClassroomBody where
  name : String
  daycare_id : Nat
deriving Repr, DecidableEq

/-- Presence check `if (!name || !daycare_id)`: both fields must be truthy (`0` is falsy). -/
def ClassroomBody.valid (b : ClassroomBody) : Bool :=
  b.name != "" && b.daycare_id != 0

/-- Handler for `PUT /update_classroom/:id`. -/
def update_classroom (db : DB) (i : Nat) (b : ClassroomBody) : UpdateResp Classroom × DB :=
  if !b.valid then ((⟨400, "error", none⟩ : UpdateResp Classroom), db)
  else
    let rowCount := (db.classrooms.filter (fun c => c.id == i)).length
    if rowCount == 0 then ((⟨404, "not_found", none⟩ : UpdateResp Classroom), db)
    else
      let newRows := db.classrooms.map (fun c =>
        if c.id == i then { c with name := b.name, daycare_id := some b.daycare_id } else c)
      ((⟨200, "success", (newRows.filter (fun c => c.id == i)).head?⟩ : UpdateResp Classroom),
        { db with classrooms := newRows })

/-! Section: Enrollment endpoints -/

/-- Handler for `GET /get_enrollments`: the count is returned without `parseInt`
(numerically it is still the row count). -/
def get_enrollments (db : DB) : ListResp Enrollment × DB :=
  ((⟨db.enrollments.length, orderByIdAsc (·.id) db.enrollments⟩ : ListResp Enrollment), db)

/-- Handler for `GET /get_enrollment/:id`:
`SELECT * FROM public.enrollment WHERE public.enrollment.id=<id> ORDER BY id ASC`;
404 when no row. -/
def get_enrollment_by_id (db : DB) (i : Nat) : GetResp Enrollment × DB :=
  let rows := orderByIdAsc (·.id) (db.enrollments.filter (fun e => e.id == i))
  if rows.length == 0 then ((⟨404, []⟩ : GetResp Enrollment), db)
  else ((⟨200, rows⟩ : GetResp Enrollment), db)

/-- Handler for `DELETE /delete_enrollment/:id`: runs the DELETE and unconditionally answers
200 `{status:"success"}` — the handler never inspects `rowCount`. -/
def delete_enrollment (db : DB) (i : Nat) : DeleteResp × DB :=
  (⟨200, "success"⟩,
    { db with enrollments := db.enrollments.filter (fun e => !(e.id == i)) })

/-- Request body read by `PUT /update_enrollment/:id`. -/
structure EnrollmentBody where
  child_id : Nat
  parent_id : Nat
deriving Repr, DecidableEq

/-- Presence check `if (!child_id || !parent_id)`: both fields must be truthy (`0` is falsy). -/
def EnrollmentBody.valid (b : EnrollmentBody) : Bool :=
  b.child_id != 0 && b.parent_id != 0

/-- Handler for `PUT /update_enrollment/:id`: 400 when a field is falsy; otherwise runs
`UPDATE ... RETURNING *` and answers 200 `{status:"success"}` with
`updated_data = result.rows[0]` — there is no `rowCount` check, so a missing id
still yields 200 with an undefined (absent) `updated_data`. -/
def update_enrollment (db : DB) (i : Nat) (b : EnrollmentBody) : UpdateResp Enrollment × DB :=
  if !b.valid then ((⟨400, "error", none⟩ : UpdateResp Enrollment), db)
  else
    let newRows := db.enrollments.map (fun e =>
      if e.id == i then { e with child_id := some b.child_id, parent_id := some b.parent_id }
      else e)
    ((⟨200, "success", (newRows.filter (fun e => e.id == i)).head?⟩ : UpdateResp Enrollment),
      { db with enrollments := newRows })

/-! Section: Child endpoints -/

/-- Handler for `GET /get_children`. -/
def get_children (db : DB) : ListResp Child × DB :=
  ((⟨db.children.length, orderByIdAsc (·.id) db.children⟩ : ListResp Child), db)

/-- Handler for `GET /get_child/:id`. -/
def get_child_by_id (db : DB) (i : Nat) : GetResp Child × DB :=
  let rows := db.children.filter (fun c => c.id == i)
  if rows.length == 0 then ((⟨404, []⟩ : GetResp Child), db)
  else ((⟨200, rows⟩ : GetResp Child), db)

/-- Handler for `DELETE /delete_child/:id`: 404 when `rowCount` is 0; enrollments referencing
the deleted child are cascade-deleted by the engine. -/
def delete_child (db : DB) (i : Nat) : DeleteResp × DB :=
  let rowCount := (db.children.filter (fun c => c.id == i)).length
  if rowCount == 0 then (⟨404, "not_found"⟩, db)
  else
    (⟨200, "success"⟩,
      { db with
        children := db.children.filter (fun c => !(c.id == i))
        enrollments := db.enrollments.filter (fun e => !(e.child_id == some i)) })

/-- Request body read by `PUT /update_child/:id`. -/
structure ChildBody where
  name : String
  date_of_birth : String
  classroom_id : Nat
  daycare_id : Nat
deriving Repr, DecidableEq

/-- Presence check `if (!name || !date_of_birth || !classroom_id || !daycare_id)`. -/
def ChildBody.valid (b : ChildBody) : Bool :=
  b.name != "" && b.date_of_birth != "" && b.classroom_id != 0 && b.daycare_id != 0

/-- Handler for `PUT /update_child/:id`. -/
def update_child (db : DB) (i : Nat) (b : ChildBody) : UpdateResp Child × DB :=
  if !b.valid then ((⟨400, "error", none⟩ : UpdateResp Child), db)
  else
    let rowCount := (db.children.filter (fun c => c.id == i)).length
    if rowCount == 0 then ((⟨404, "not_found", none⟩ : UpdateResp Child), db)
    else
      let newRows := db.children.map (fun c =>
        if c.id == i then
          { c with name := b.name, date_of_birth := b.date_of_birth,
                   classroom_id := some b.classroom_id, daycare_id := some b.daycare_id }
        else c)
      ((⟨200, "success", (newRows.filter (fun c => c.id == i)).head?⟩ : UpdateResp Child),
        { db with children := newRows })

/-! Section: Parent endpoints -/

/-- Handler for `GET /get_parents`. -/
def get_parents (db : DB) : ListResp Parent × DB :=
  ((⟨db.parents.length, orderByIdAsc (·.id) db.parents⟩ : ListResp Parent), db)

/-- Handler for `GET /get_parent/:id`. -/
def get_parent_by_id (db : DB) (i : Nat) : GetResp Parent × DB :=
  let rows := db.parents.filter (fun p => p.id == i)
  if rows.length == 0 then ((⟨404, []⟩ : GetResp Parent), db)
  else ((⟨200, rows⟩ : GetResp Parent), db)

/-- Handler for `DELETE /delete_parent/:id`: 404 when `rowCount` is 0; enrollments referencing
the deleted parent are cascade-deleted by the engine. -/
def delete_parent (db : DB) (i : Nat) : DeleteResp × DB :=
  let rowCount := (db.parents.filter (fun p => p.id == i)).length
  if rowCount == 0 then (⟨404, "not_found"⟩, db)
  else
    (⟨200, "success"⟩,
      { db with
        parents := db.parents.filter (fun p => !(p.id == i))
        enrollments := db.enrollments.filter (fun e => !(e.parent_id == some i)) })

/-- Request body read by `PUT /update_parent/:id`. -/
structure ParentBody where
  name : String
  phone : String
  email : String
deriving Repr, DecidableEq

/-- Presence check `if (!name || !phone || !email)`. -/
def ParentBody.valid (b : ParentBody) : Bool :=
  b.name != "" && b.phone != "" && b.email != ""

/-- Handler for `PUT /update_parent/:id`. -/
def update_parent (db : DB) (i : Nat) (b : ParentBody) : UpdateResp Parent × DB :=
  if !b.valid then ((⟨400, "error", none⟩ : UpdateResp Parent), db)
  else
    let rowCount := (db.parents.filter (fun p => p.id == i)).length
    if rowCount == 0 then ((⟨404, "not_found", none⟩ : UpdateResp Parent), db)
    else
      let newRows := db.parents.map (fun p =>
        if p.id == i then { p with name := b.name, phone := b.phone, email := b.email } else p)
      ((⟨200, "success", (newRows.filter (fun p => p.id == i)).head?⟩ : UpdateResp Parent),
        { db with parents := newRows })

/-! Section: Metrics middleware (prom-client wrapper, second source file) -/

/-- Bucket upper bounds configured on the `http_request_duration_seconds`
histogram, as exact rationals (the source literals `0.005, ..., 5`). -/
def httpDurationBuckets : List ℚ :=
  [0.005, 0.01, 0.025, 0.05, 0.1, 0.25, 0.5, 1, 2, 5]

/-- Label names configured on the histogram: `['method', 'route', 'code']`. -/
def httpDurationLabelNames : List String := ["method", "route", "code"]

/-- Metric name of the latency histogram. -/
def httpDurationName : String := "http_request_duration_seconds"

/-- Default `skipPaths` argument of `metricsMiddleware`. -/
def skipPaths : List String := ["/metrics", "/api/metrics"]

/-- An inbound HTTP request as the middleware sees it: the raw `req.path`, the
matched Express route pattern `req.route.path` when dispatch matched a route
(`none` otherwise), and the response data available once the response finishes. -/
structure HttpRequest where
  method : String
  path : String
  routePath : Option String
  statusCode : Nat
  durationNs : Nat
deriving Repr, DecidableEq

/-- One recorded histogram observation together with its label values. -/
structure Observation where
  method : String
  route : String
  code : Nat
  durationNs : Nat
deriving Repr, DecidableEq

/-- Label expression `(req.route && req.route.path) || req.path || 'unknown'`
with JavaScript string falsiness (an empty string falls through to the next
alternative). -/
def routeLabel (r : HttpRequest) : String :=
  let a := r.routePath.getD ""
  if a != "" then a else if r.path != "" then r.path else "unknown"

/-- Middleware `metricsMiddleware`: requests whose `req.path` is in `skipPaths`
are passed through untouched; every other request appends one observation to
the histogram when its response finishes. -/
def metricsMiddleware (hist : List Observation) (r : HttpRequest) : List Observation :=
  if skipPaths.contains r.path then hist
  else hist ++ [⟨r.method, routeLabel r, r.statusCode, r.durationNs⟩]

/-- Accumulated histogram state after a sequence of requests. -/
def processRequests (hist : List Observation) (rs : List HttpRequest) : List Observation :=
  rs.foldl metricsMiddleware hist

/-- Handlers for `GET /metrics` and `GET /api/metrics`: they render the
registry (modelled as returning the accumulated observations) and issue no
database statement. -/
def metricsScrape (db : DB) (hist : List Observation) : List Observation × DB := (hist, db)

/-! Section: Express route matching (model of how `req.route.path` relates to `req.path`) -/

/-- Split a path into its `/`-separated segments, at the character level. -/
def splitSegs : List Char → List (List Char)
  | [] => [[]]
  | c :: cs =>
      if c = '/' then [] :: splitSegs cs
      else
        match splitSegs cs with
        | [] => [[c]]
        | s :: ss => (c :: s) :: ss

/-- Inverse of `splitSegs`: re-join segments with `/`. -/
def joinSegs : List (List Char) → List Char
  | [] => []
  | [s] => s
  | s :: t :: ts => s ++ '/' :: joinSegs (t :: ts)

/-- Route segments of the form `:param`. -/
def isParamSeg : List Char → Bool
  | ':' :: _ => true
  | _ => false

/-- One route segment against one path segment: a `:param` segment matches any
nonempty segment, a static segment matches only itself. -/
def segMatches (pat seg : List Char) : Bool :=
  if isParamSeg pat then !seg.isEmpty else pat == seg

/-- All segments in order, with the same number of segments. -/
def segsMatch : List (List Char) → List (List Char) → Bool
  | [], [] => true
  | [], _ :: _ => false
  | _ :: _, [] => false
  | p :: ps, s :: ss => segMatches p s && segsMatch ps ss

/-- Express route-pattern matching (static segments and `:id` parameters):
which raw paths a registered route pattern can dispatch. -/
def patternMatches (pat path : String) : Bool :=
  segsMatch (splitSegs pat.data) (splitSegs path.data)

/-- All route patterns registered on the app. -/
def appRoutes : List String :=
  ["/health", "/metrics", "/api/metrics",
   "/get_daycares", "/get_daycare/:id", "/delete_daycare/:id", "/update_daycare/:id",
   "/get_classrooms", "/get_classroom/:id", "/delete_classroom/:id", "/update_classroom/:id",
   "/get_enrollments", "/get_enrollment/:id", "/delete_enrollment/:id", "/update_enrollment/:id",
   "/get_children", "/get_child/:id", "/delete_child/:id", "/update_child/:id",
   "/get_parents", "/get_parent/:id", "/delete_parent/:id", "/update_parent/:id"]

/-- A request is routed consistently when, whenever Express dispatched it to a
route, that route's pattern is registered on the app and matches the raw path. -/
def routedConsistently (r : HttpRequest) : Bool :=
  match r.routePath with
  | none => true
  | some p => appRoutes.contains p && patternMatches p r.path

/-! Section: Helper lemmas about path segmentation -/

theorem splitSegs_ne_nil (l : List Char) : splitSegs l ≠ [] := by
  cases l with
  | nil => simp [splitSegs]
  | cons c cs =>
      simp only [splitSegs]
      split
      · simp
      · split <;> simp

theorem joinSegs_splitSegs (l : List Char) : joinSegs (splitSegs l) = l := by
  induction l with
  | nil => rfl
  | cons c cs ih =>
      rcases h : splitSegs cs with _ | ⟨s, ss⟩
      · exact absurd h (splitSegs_ne_nil cs)
      · rw [h] at ih
        by_cases hc : c = '/'
        · subst hc
          simp only [splitSegs, if_pos rfl, h, joinSegs]
          simpa using ih
        · simp only [splitSegs, if_neg hc, h]
          cases ss with
          | nil => simpa [joinSegs] using congrArg (c :: ·) ih
          | cons t ts => simpa [joinSegs] using congrArg (c :: ·) ih

theorem segsMatch_eq_of_noParam :
    ∀ ps ss : List (List Char), (∀ p ∈ ps, isParamSeg p = false) →
      segsMatch ps ss = true → ps = ss
  | [], [], _, _ => rfl
  | [], _ :: _, _, h => by simp [segsMatch] at h
  | _ :: _, [], _, h => by simp [segsMatch] at h
  | p :: ps, s :: ss, hnp, h => by
      rw [segsMatch, Bool.and_eq_true] at h
      have hp : isParamSeg p = false := hnp p (List.mem_cons_self ..)
      have h1 : p = s := by
        have hm := h.1
        rw [segMatches, hp] at hm
        simpa using hm
      have h2 : ps = ss :=
        segsMatch_eq_of_noParam ps ss (fun q hq => hnp q (List.mem_cons_of_mem _ hq)) h.2
      rw [h1, h2]

/-- A pattern with no `:param` segment matches only the literal path itself. -/
theorem patternMatches_static (pat path : String)
    (hstatic : (splitSegs pat.data).all (fun s => !isParamSeg s) = true)
    (h : patternMatches pat path = true) : path = pat := by
  have hs : splitSegs pat.data = splitSegs path.data := by
    refine segsMatch_eq_of_noParam _ _ ?_ h
    intro p hp
    simpa using List.all_eq_true.1 hstatic p hp
  have hd : pat.data = path.data := by
    have h1 := joinSegs_splitSegs pat.data
    have h2 := joinSegs_splitSegs path.data
    rw [← h1, ← h2, hs]
  exact String.ext hd.symm

/-- The label of an observed (non-skipped), consistently routed request is
never one of the scrape paths. -/
theorem routeLabel_ne_skip (r : HttpRequest) (hr : routedConsistently r = true)
    (hp1 : r.path ≠ "/metrics") (hp2 : r.path ≠ "/api/metrics") :
    routeLabel r ≠ "/metrics" ∧ routeLabel r ≠ "/api/metrics" := by
  unfold routeLabel
  cases hro : r.routePath with
  | none =>
      simp only [hro, Option.getD_none]
      by_cases hpe : r.path = ""
      · simp [hpe]
      · simp [hpe, hp1, hp2]
  | some p =>
      simp only [hro, Option.getD_some]
      by_cases hpemp : p = ""
      · subst hpemp
        by_cases hpe : r.path = ""
        · simp [hpe]
        · simp [hpe, hp1, hp2]
      · have hmatch : patternMatches p r.path = true := by
          rw [routedConsistently, hro, Bool.and_eq_true] at hr
          exact hr.2
        have hne : (p != "") = true := by simpa using hpemp
        rw [if_pos hne]
        constructor
        · intro hcontra
          subst hcontra
          exact hp1 (patternMatches_static _ _ (by decide) hmatch)
        · intro hcontra
          subst hcontra
          exact hp2 (patternMatches_static _ _ (by decide) hmatch)

/-- Observations present after processing a request stream either were already
in the histogram or carry a label away from the scrape paths. -/
theorem mem_processRequests (rs : List HttpRequest) :
    ∀ hist : List Observation, (∀ r ∈ rs, routedConsistently r = true) →
      ∀ o ∈ processRequests hist rs,
        o ∈ hist ∨ (o.route ≠ "/metrics" ∧ o.route ≠ "/api/metrics") := by
  induction rs with
  | nil => intro hist _ o ho; exact Or.inl ho
  | cons r rs ih =>
      intro hist hcons o ho
      have hstep : processRequests hist (r :: rs) =
          processRequests (metricsMiddleware hist r) rs := rfl
      rw [hstep] at ho
      rcases ih (metricsMiddleware hist r)
          (fun q hq => hcons q (List.mem_cons_of_mem _ hq)) o ho with hmem | hgood
      · unfold metricsMiddleware at hmem
        by_cases hskip : skipPaths.contains r.path = true
        · rw [if_pos hskip] at hmem
          exact Or.inl hmem
        · rw [if_neg hskip] at hmem
          rcases List.mem_append.1 hmem with hold | hnew
          · exact Or.inl hold
          · have hrq : routedConsistently r = true := hcons r (List.mem_cons_self ..)
            have hp : r.path ≠ "/metrics" ∧ r.path ≠ "/api/metrics" := by
              constructor <;> intro hq <;> exact hskip (by rw [hq]; decide)
            have hlab := routeLabel_ne_skip r hrq hp.1 hp.2
            have ho' : o = ⟨r.method, routeLabel r, r.statusCode, r.durationNs⟩ := by
              simpa using hnew
            subst ho'
            exact Or.inr hlab
      · exact Or.inr hgood

/-! Section: Generic helper lemmas about keyed row lists -/

theorem filter_false_eq_nil {ρ : Type} (p : ρ → Bool) (l : List ρ)
    (h : ∀ a ∈ l, p a = false) : l.filter p = [] := by
  induction l with
  | nil => rfl
  | cons x xs ih =>
      rw [List.filter_cons, h x (List.mem_cons_self ..)]
      exact ih fun a ha => h a (List.mem_cons_of_mem _ ha)

theorem perm_orderByIdAsc {ρ : Type} (f : ρ → Nat) (l : List ρ) :
    (orderByIdAsc f l).Perm l :=
  List.perm_insertionSort _ l

theorem pairwise_orderByIdAsc {ρ : Type} (f : ρ → Nat) (l : List ρ) :
    (orderByIdAsc f l).Pairwise (fun a b => f a ≤ f b) := by
  have ht : IsTotal ρ (fun a b => f a ≤ f b) := ⟨fun a b => Nat.le_total (f a) (f b)⟩
  have htr : IsTrans ρ (fun a b => f a ≤ f b) := ⟨fun a b c hab hbc => Nat.le_trans hab hbc⟩
  exact @List.sorted_insertionSort ρ (fun a b => f a ≤ f b) _ ht htr l

theorem updateById_filter {ρ : Type} (f : ρ → Nat) (g : ρ → ρ) (i : Nat)
    (hg : ∀ x, f (g x) = f x) :
    ∀ l : List ρ, (l.map f).Nodup → ∀ r ∈ l, f r = i →
      (l.map (fun x => if f x == i then g x else x)).filter (fun x => f x == i) = [g r] := by
  intro l
  induction l with
  | nil => intro _ r hr; cases hr
  | cons x xs ih =>
      intro hnd r hr hi
      rw [List.map_cons, List.nodup_cons] at hnd
      rcases List.mem_cons.1 hr with rfl | hrx
      · have hfx : (f r == i) = true := by simp [hi]
        have hkeep : (f (g r) == i) = true := by simp [hg, hi]
        rw [List.map_cons, hfx, if_pos rfl, List.filter_cons, hkeep, if_pos rfl]
        have htail : (xs.map (fun x => if f x == i then g x else x)).filter
            (fun x => f x == i) = [] := by
          apply filter_false_eq_nil
          intro y hy
          rcases List.mem_map.1 hy with ⟨z, hz, rfl⟩
          by_cases hc : f z = i
          · exfalso
            have hmem : f z ∈ xs.map f := List.mem_map_of_mem f hz
            rw [hc, ← hi] at hmem
            exact hnd.1 hmem
          · have hzc : (f z == i) = false := by simpa using hc
            rw [hzc, if_neg (by simp), hzc]
        rw [htail]
      · have hfx : (f x == i) = false := by
          have hxne : f x ≠ i := by
            intro hfxi
            have hmem : f r ∈ xs.map f := List.mem_map_of_mem f hrx
            rw [hi, ← hfxi] at hmem
            exact hnd.1 hmem
          simpa using hxne
        rw [List.map_cons, hfx, if_neg (by simp), List.filter_cons, hfx, if_neg (by simp)]
        exact ih hnd.2 r hrx hi

/-! Section: Claim C2 -/

/-- C2: for every entity and database state, the list endpoint returns a body
whose count equals the length of the returned data and equals the true number
of rows in the entity's table. -/
theorem C2_list_count_correct (db : DB) :
    ((get_daycares db).1.count = (get_daycares db).1.data.length ∧
      (get_daycares db).1.count = db.daycares.length) ∧
    ((get_classrooms db).1.count = (get_classrooms db).1.data.length ∧
      (get_classrooms db).1.count = db.classrooms.length) ∧
    ((get_parents db).1.count = (get_parents db).1.data.length ∧
      (get_parents db).1.count = db.parents.length) ∧
    ((get_children db).1.count = (get_children db).1.data.length ∧
      (get_children db).1.count = db.children.length) ∧
    ((get_enrollments db).1.count = (get_enrollments db).1.data.length ∧
      (get_enrollments db).1.count = db.enrollments.length) := by
  refine ⟨⟨?_, rfl⟩, ⟨?_, rfl⟩, ⟨?_, rfl⟩, ⟨?_, rfl⟩, ⟨?_, rfl⟩⟩ <;>
    exact ((perm_orderByIdAsc _ _).length_eq).symm

/-! Section: Claim C8 -/

/-- C8: every list endpoint returns all rows of its table — the returned data
is a permutation of the table (no pagination, no truncation) — sorted in
ascending order of id. -/
theorem C8_list_all_rows_sorted (db : DB) :
    ((get_daycares db).1.data.Perm db.daycares ∧
      (get_daycares db).1.data.Pairwise (fun a b => a.id ≤ b.id)) ∧
    ((get_classrooms db).1.data.Perm db.classrooms ∧
      (get_classrooms db).1.data.Pairwise (fun a b => a.id ≤ b.id)) ∧
    ((get_parents db).1.data.Perm db.parents ∧
      (get_parents db).1.data.Pairwise (fun a b => a.id ≤ b.id)) ∧
    ((get_children db).1.data.Perm db.children ∧
      (get_children db).1.data.Pairwise (fun a b => a.id ≤ b.id)) ∧
    ((get_enrollments db).1.data.Perm db.enrollments ∧
      (get_enrollments db).1.data.Pairwise (fun a b => a.id ≤ b.id)) :=
  ⟨⟨perm_orderByIdAsc _ _, pairwise_orderByIdAsc _ _⟩,
   ⟨perm_orderByIdAsc _ _, pairwise_orderByIdAsc _ _⟩,
   ⟨perm_orderByIdAsc _ _, pairwise_orderByIdAsc _ _⟩,
   ⟨perm_orderByIdAsc _ _, pairwise_orderByIdAsc _ _⟩,
   ⟨perm_orderByIdAsc _ _, pairwise_orderByIdAsc _ _⟩⟩

/-! Section: Claim C10 -/

/-- C10: every GET handler (health, list, get-by-id and the metrics scrape)
issues only SELECT statements or none, so the stored table state after the
request equals the state before it. -/
theorem C10_get_handlers_preserve_state (db : DB) (i : Nat) (hist : List Observation) :
    (health db).2 = db ∧
    (get_daycares db).2 = db ∧ (get_daycare_by_id db i).2 = db ∧
    (get_classrooms db).2 = db ∧ (get_classroom_by_id db i).2 = db ∧
    (get_parents db).2 = db ∧ (get_parent_by_id db i).2 = db ∧
    (get_children db).2 = db ∧ (get_child_by_id db i).2 = db ∧
    (get_enrollments db).2 = db ∧ (get_enrollment_by_id db i).2 = db ∧
    (metricsScrape db hist).2 = db := by
  refine ⟨rfl, rfl, ?_, rfl, ?_, rfl, ?_, rfl, ?_, rfl, ?_, rfl⟩ <;>
    first
      | (rw [get_daycare_by_id]; split <;> rfl)
      | (rw [get_classroom_by_id]; split <;> rfl)
      | (rw [get_parent_by_id]; split <;> rfl)
      | (rw [get_child_by_id]; split <;> rfl)
      | (rw [get_enrollment_by_id]; split <;> rfl)

/-! Section: Claim C7 -/

/-- C7: the HTTP request-duration histogram has exactly the bucket upper
bounds 5ms, 10ms, 25ms, 50ms, 100ms, 250ms, 500ms, 1s, 2s and 5s, and is
labeled by HTTP method, route and status code. -/
theorem C7_histogram_buckets_and_labels :
    httpDurationBuckets =
      [5/1000, 10/1000, 25/1000, 50/1000, 100/1000, 250/1000, 500/1000,
       1000/1000, 2000/1000, 5000/1000] ∧
    httpDurationLabelNames = ["method", "route", "code"] ∧
    httpDurationName = "http_request_duration_seconds" := by
  refine ⟨?_, rfl, rfl⟩
  norm_num [httpDurationBuckets]

/-! Section: Claim C6 -/

/-- C6: requests whose path is `/metrics` or `/api/metrics` are never observed
by the latency histogram — after any consistently routed request sequence, the
accumulated histogram contains no observation labeled with either path. -/
theorem C6_metrics_paths_never_observed (rs : List HttpRequest)
    (h : ∀ r ∈ rs, routedConsistently r = true) :
    ∀ o ∈ processRequests [] rs, o.route ≠ "/metrics" ∧ o.route ≠ "/api/metrics" := by
  intro o ho
  rcases mem_processRequests rs [] h o ho with hmem | hgood
  · cases hmem
  · exact hgood

/-- Demo request stream: two scrape requests around one routed entity request. -/
def demoRequests : List HttpRequest :=
  [⟨"GET", "/metrics", some "/metrics", 200, 1200⟩,
   ⟨"GET", "/get_daycare/1", some "/get_daycare/:id", 200, 3500⟩,
   ⟨"GET", "/api/metrics", some "/api/metrics", 200, 900⟩]

/-- The single observation the demo request stream records. -/
def demoObservation : Observation := ⟨"GET", "/get_daycare/:id", 200, 3500⟩

/-- Witness for C6 on the demo request stream. -/
theorem C6_metrics_paths_never_observed_witness :
    demoObservation ∈ processRequests [] demoRequests ∧
    demoObservation.route ≠ "/metrics" ∧ demoObservation.route ≠ "/api/metrics" :=
  ⟨by decide,
   C6_metrics_paths_never_observed demoRequests (by decide) demoObservation (by decide)⟩

/-! Section: Claim C3 -/

/-- C3: for every entity, an update request in which any required field is
absent or falsy (including 0 and the empty string) returns HTTP 400 and leaves
the database state completely unchanged. -/
theorem C3_update_invalid_400_no_mutation (db : DB) (i : Nat)
    (bd : DaycareBody) (bc : ClassroomBody) (bp : ParentBody) (bch : ChildBody)
    (be : EnrollmentBody)
    (hd : bd.valid = false) (hc : bc.valid = false) (hp : bp.valid = false)
    (hch : bch.valid = false) (he : be.valid = false) :
    update_daycare db i bd = (⟨400, "error", none⟩, db) ∧
    update_classroom db i bc = (⟨400, "error", none⟩, db) ∧
    update_parent db i bp = (⟨400, "error", none⟩, db) ∧
    update_child db i bch = (⟨400, "error", none⟩, db) ∧
    update_enrollment db i be = (⟨400, "error", none⟩, db) := by
  refine ⟨?_, ?_, ?_, ?_, ?_⟩
  · rw [update_daycare, hd]; rfl
  · rw [update_classroom, hc]; rfl
  · rw [update_parent, hp]; rfl
  · rw [update_child, hch]; rfl
  · rw [update_enrollment, he]; rfl

/-- Witness for C3: concrete invalid bodies (empty strings and zero ids) on the
seed database. -/
theorem C3_update_invalid_400_no_mutation_witness :
    update_daycare seedDB 1 ⟨"", "456 Rainbow Rd", "555-9999", "a@b.com"⟩ =
      (⟨400, "error", none⟩, seedDB) ∧
    update_classroom seedDB 1 ⟨"Preschool B", 0⟩ = (⟨400, "error", none⟩, seedDB) ∧
    update_parent seedDB 1 ⟨"Alice Johnson", "", "alice@example.com"⟩ =
      (⟨400, "error", none⟩, seedDB) ∧
    update_child seedDB 1 ⟨"Emily Johnson", "2020-05-12", 0, 1⟩ =
      (⟨400, "error", none⟩, seedDB) ∧
    update_enrollment seedDB 1 ⟨0, 2⟩ = (⟨400, "error", none⟩, seedDB) :=
  C3_update_invalid_400_no_mutation seedDB 1
    ⟨"", "456 Rainbow Rd", "555-9999", "a@b.com"⟩ ⟨"Preschool B", 0⟩
    ⟨"Alice Johnson", "", "alice@example.com"⟩ ⟨"Emily Johnson", "2020-05-12", 0, 1⟩ ⟨0, 2⟩
    (by decide) (by decide) (by decide) (by decide) (by decide)

/-! Section: Claim C9 -/

/-- C9: enrollment update with truthy `child_id` and `parent_id` and an id
matching no stored row returns HTTP 200 with status "success" and an absent
`updated_data`, never 404 — the handler performs no affected-row-count check —
and leaves the table unchanged. -/
theorem C9_enrollment_update_missing_id (db : DB) (i : Nat) (b : EnrollmentBody)
    (hb : b.valid = true) (hno : ∀ e ∈ db.enrollments, e.id ≠ i) :
    (update_enrollment db i b).1 = ⟨200, "success", none⟩ ∧
    (update_enrollment db i b).2 = db := by
  rw [update_enrollment, hb]
  have hrows : db.enrollments.map
      (fun e => if e.id == i then
        { e with child_id := some b.child_id, parent_id := some b.parent_id } else e) =
      db.enrollments := by
    conv_rhs => rw [← List.map_id db.enrollments]
    apply List.map_congr_left
    intro e he
    have : (e.id == i) = false := by simpa using hno e he
    rw [this, if_neg (by simp), id]
  have hfil : db.enrollments.filter (fun e => e.id == i) = [] :=
    filter_false_eq_nil _ _ (fun e he => by simpa using hno e he)
  simp only [Bool.not_true, Bool.false_eq_true, if_false, hrows, hfil]
  exact ⟨rfl, trivial⟩

/-- Witness for C9: updating enrollment id 999 (absent from the seed data) with
a valid body. -/
theorem C9_enrollment_update_missing_id_witness :
    (update_enrollment seedDB 999 ⟨1, 1⟩).1 = ⟨200, "success", none⟩ ∧
    (update_enrollment seedDB 999 ⟨1, 1⟩).2 = seedDB :=
  C9_enrollment_update_missing_id seedDB 999 ⟨1, 1⟩ (by decide) (by decide)

/-! Section: Claim C1 -/

/-- C1 as stated is false: with no stored row for id 1 (the empty database),
the enrollment update with a truthy body returns 200, and the daycare update
with a falsy field returns 400 — neither is the claimed 404. -/
theorem C1_counterexample :
    (update_enrollment emptyDB 1 ⟨1, 1⟩).1.code = 200 ∧
    (update_daycare emptyDB 1 ⟨"", "x", "y", "z"⟩).1.code = 400 := by decide

/-- C1 (amended): for any id matching no stored row, get-by-id returns 404 for
all five entities and so do delete and update (the latter for bodies whose
required fields are all present and truthy), with two exceptions: enrollment
delete returns 200 regardless, and enrollment update returns 200 regardless. -/
theorem C1_missing_id_statuses (db : DB) (i : Nat)
    (bd : DaycareBody) (bc : ClassroomBody) (bp : ParentBody) (bch : ChildBody)
    (be : EnrollmentBody)
    (hbd : bd.valid = true) (hbc : bc.valid = true) (hbp : bp.valid = true)
    (hbch : bch.valid = true) (hbe : be.valid = true)
    (hnd : ∀ d ∈ db.daycares, d.id ≠ i)
    (hnc : ∀ c ∈ db.classrooms, c.id ≠ i)
    (hnp : ∀ p ∈ db.parents, p.id ≠ i)
    (hnch : ∀ c ∈ db.children, c.id ≠ i)
    (hne : ∀ e ∈ db.enrollments, e.id ≠ i) :
    (get_daycare_by_id db i).1.code = 404 ∧
    (get_classroom_by_id db i).1.code = 404 ∧
    (get_parent_by_id db i).1.code = 404 ∧
    (get_child_by_id db i).1.code = 404 ∧
    (get_enrollment_by_id db i).1.code = 404 ∧
    (update_daycare db i bd).1.code = 404 ∧
    (update_classroom db i bc).1.code = 404 ∧
    (update_parent db i bp).1.code = 404 ∧
    (update_child db i bch).1.code = 404 ∧
    (update_enrollment db i be).1.code = 200 ∧
    (delete_daycare db i).1.code = 404 ∧
    (delete_classroom db i).1.code = 404 ∧
    (delete_parent db i).1.code = 404 ∧
    (delete_child db i).1.code = 404 ∧
    (delete_enrollment db i).1.code = 200 := by
  have hfd : db.daycares.filter (fun d => d.id == i) = [] :=
    filter_false_eq_nil _ _ fun a ha => by simpa using hnd a ha
  have hfc : db.classrooms.filter (fun c => c.id == i) = [] :=
    filter_false_eq_nil _ _ fun a ha => by simpa using hnc a ha
  have hfp : db.parents.filter (fun p => p.id == i) = [] :=
    filter_false_eq_nil _ _ fun a ha => by simpa using hnp a ha
  have hfch : db.children.filter (fun c => c.id == i) = [] :=
    filter_false_eq_nil _ _ fun a ha => by simpa using hnch a ha
  have hfe : db.enrollments.filter (fun e => e.id == i) = [] :=
    filter_false_eq_nil _ _ fun a ha => by simpa using hne a ha
  refine ⟨?_, ?_, ?_, ?_, ?_, ?_, ?_, ?_, ?_, ?_, ?_, ?_, ?_, ?_, rfl⟩
  · simp [get_daycare_by_id, hfd]
  · simp [get_classroom_by_id, hfc]
  · simp [get_parent_by_id, hfp]
  · simp [get_child_by_id, hfch]
  · simp [get_enrollment_by_id, hfe, orderByIdAsc, List.insertionSort]
  · simp [update_daycare, hbd, hfd]
  · simp [update_classroom, hbc, hfc]
  · simp [update_parent, hbp, hfp]
  · simp [update_child, hbch, hfch]
  · simp [update_enrollment, hbe]
  · simp [delete_daycare, hfd]
  · simp [delete_classroom, hfc]
  · simp [delete_parent, hfp]
  · simp [delete_child, hfch]

/-- Witness for the amended C1 on the seed database at the absent id 999. -/
theorem C1_missing_id_statuses_witness :
    (get_daycare_by_id seedDB 999).1.code = 404 ∧
    (get_classroom_by_id seedDB 999).1.code = 404 ∧
    (get_parent_by_id seedDB 999).1.code = 404 ∧
    (get_child_by_id seedDB 999).1.code = 404 ∧
    (get_enrollment_by_id seedDB 999).1.code = 404 ∧
    (update_daycare seedDB 999 ⟨"n", "a", "p", "e"⟩).1.code = 404 ∧
    (update_classroom seedDB 999 ⟨"n", 1⟩).1.code = 404 ∧
    (update_parent seedDB 999 ⟨"n", "p", "e"⟩).1.code = 404 ∧
    (update_child seedDB 999 ⟨"n", "2020-01-01", 1, 1⟩).1.code = 404 ∧
    (update_enrollment seedDB 999 ⟨1, 1⟩).1.code = 200 ∧
    (delete_daycare seedDB 999).1.code = 404 ∧
    (delete_classroom seedDB 999).1.code = 404 ∧
    (delete_parent seedDB 999).1.code = 404 ∧
    (delete_child seedDB 999).1.code = 404 ∧
    (delete_enrollment seedDB 999).1.code = 200 :=
  C1_missing_id_statuses seedDB 999 ⟨"n", "a", "p", "e"⟩ ⟨"n", 1⟩ ⟨"n", "p", "e"⟩
    ⟨"n", "2020-01-01", 1, 1⟩ ⟨1, 1⟩ (by decide) (by decide) (by decide) (by decide)
    (by decide) (by decide) (by decide) (by decide) (by decide) (by decide)

/-! Section: Claim C4: per-entity update-success lemmas -/

/-- Row transformation of the daycare UPDATE statement's SET clause. -/
def applyDaycareBody (b : DaycareBody) (d : Daycare) : Daycare :=
  { d with name := b.name, address := b.address, phone := b.phone, email := b.email }

/-- Row transformation of the classroom UPDATE statement's SET clause. -/
def applyClassroomBody (b : ClassroomBody) (c : Classroom) : Classroom :=
  { c with name := b.name, daycare_id := some b.daycare_id }

/-- Row transformation of the parent UPDATE statement's SET clause. -/
def applyParentBody (b : ParentBody) (p : Parent) : Parent :=
  { p with name := b.name, phone := b.phone, email := b.email }

/-- Row transformation of the child UPDATE statement's SET clause. -/
def applyChildBody (b : ChildBody) (c : Child) : Child :=
  { c with name := b.name, date_of_birth := b.date_of_birth,
           classroom_id := some b.classroom_id, daycare_id := some b.daycare_id }

/-- Row transformation of the enrollment UPDATE statement's SET clause. -/
def applyEnrollmentBody (b : EnrollmentBody) (e : Enrollment) : Enrollment :=
  { e with child_id := some b.child_id, parent_id := some b.parent_id }

theorem update_daycare_ok (db : DB) (i : Nat) (bd : DaycareBody) (r : Daycare)
    (hb : bd.valid = true) (hw : (db.daycares.map (·.id)).Nodup)
    (hr : r ∈ db.daycares) (hi : r.id = i) :
    (update_daycare db i bd).1 = ⟨200, "success", some (applyDaycareBody bd r)⟩ ∧
    (get_daycare_by_id (update_daycare db i bd).2 i).1 = ⟨200, [applyDaycareBody bd r]⟩ := by
  have key := updateById_filter (fun d : Daycare => d.id) (applyDaycareBody bd) i
      (fun x => rfl) db.daycares hw r hr hi
  simp only [applyDaycareBody] at key
  have hlen : ((db.daycares.filter (fun d => d.id == i)).length == 0) = false := by
    have hne : db.daycares.filter (fun d => d.id == i) ≠ [] :=
      List.ne_nil_of_mem (List.mem_filter.2 ⟨hr, by simp [hi]⟩)
    simpa [List.length_eq_zero] using hne
  rw [update_daycare, hb]
  simp only [Bool.not_true, Bool.false_eq_true, if_false, hlen, key, List.head?_cons,
    applyDaycareBody]
  refine ⟨trivial, ?_⟩
  rw [get_daycare_by_id]
  simp only [key]
  rfl

theorem update_classroom_ok (db : DB) (i : Nat) (bc : ClassroomBody) (r : Classroom)
    (hb : bc.valid = true) (hw : (db.classrooms.map (·.id)).Nodup)
    (hr : r ∈ db.classrooms) (hi : r.id = i) :
    (update_classroom db i bc).1 = ⟨200, "success", some (applyClassroomBody bc r)⟩ ∧
    (get_classroom_by_id (update_classroom db i bc).2 i).1 =
      ⟨200, [applyClassroomBody bc r]⟩ := by
  have key := updateById_filter (fun c : Classroom => c.id) (applyClassroomBody bc) i
      (fun x => rfl) db.classrooms hw r hr hi
  simp only [applyClassroomBody] at key
  have hlen : ((db.classrooms.filter (fun c => c.id == i)).length == 0) = false := by
    have hne : db.classrooms.filter (fun c => c.id == i) ≠ [] :=
      List.ne_nil_of_mem (List.mem_filter.2 ⟨hr, by simp [hi]⟩)
    simpa [List.length_eq_zero] using hne
  rw [update_classroom, hb]
  simp only [Bool.not_true, Bool.false_eq_true, if_false, hlen, key, List.head?_cons,
    applyClassroomBody]
  refine ⟨trivial, ?_⟩
  rw [get_classroom_by_id]
  simp only [key]
  rfl

theorem update_parent_ok (db : DB) (i : Nat) (bp : ParentBody) (r : Parent)
    (hb : bp.valid = true) (hw : (db.parents.map (·.id)).Nodup)
    (hr : r ∈ db.parents) (hi : r.id = i) :
    (update_parent db i bp).1 = ⟨200, "success", some (applyParentBody bp r)⟩ ∧
    (get_parent_by_id (update_parent db i bp).2 i).1 = ⟨200, [applyParentBody bp r]⟩ := by
  have key := updateById_filter (fun p : Parent => p.id) (applyParentBody bp) i
      (fun x => rfl) db.parents hw r hr hi
  simp only [applyParentBody] at key
  have hlen : ((db.parents.filter (fun p => p.id == i)).length == 0) = false := by
    have hne : db.parents.filter (fun p => p.id == i) ≠ [] :=
      List.ne_nil_of_mem (List.mem_filter.2 ⟨hr, by simp [hi]⟩)
    simpa [List.length_eq_zero] using hne
  rw [update_parent, hb]
  simp only [Bool.not_true, Bool.false_eq_true, if_false, hlen, key, List.head?_cons,
    applyParentBody]
  refine ⟨trivial, ?_⟩
  rw [get_parent_by_id]
  simp only [key]
  rfl

theorem update_child_ok (db : DB) (i : Nat) (bch : ChildBody) (r : Child)
    (hb : bch.valid = true) (hw : (db.children.map (·.id)).Nodup)
    (hr : r ∈ db.children) (hi : r.id = i) :
    (update_child db i bch).1 = ⟨200, "success", some (applyChildBody bch r)⟩ ∧
    (get_child_by_id (update_child db i bch).2 i).1 = ⟨200, [applyChildBody bch r]⟩ := by
  have key := updateById_filter (fun c : Child => c.id) (applyChildBody bch) i
      (fun x => rfl) db.children hw r hr hi
  simp only [applyChildBody] at key
  have hlen : ((db.children.filter (fun c => c.id == i)).length == 0) = false := by
    have hne : db.children.filter (fun c => c.id == i) ≠ [] :=
      List.ne_nil_of_mem (List.mem_filter.2 ⟨hr, by simp [hi]⟩)
    simpa [List.length_eq_zero] using hne
  rw [update_child, hb]
  simp only [Bool.not_true, Bool.false_eq_true, if_false, hlen, key, List.head?_cons,
    applyChildBody]
  refine ⟨trivial, ?_⟩
  rw [get_child_by_id]
  simp only [key]
  rfl

theorem update_enrollment_ok (db : DB) (i : Nat) (be : EnrollmentBody) (r : Enrollment)
    (hb : be.valid = true) (hw : (db.enrollments.map (·.id)).Nodup)
    (hr : r ∈ db.enrollments) (hi : r.id = i) :
    (update_enrollment db i be).1 = ⟨200, "success", some (applyEnrollmentBody be r)⟩ ∧
    (get_enrollment_by_id (update_enrollment db i be).2 i).1 =
      ⟨200, [applyEnrollmentBody be r]⟩ := by
  have key := updateById_filter (fun e : Enrollment => e.id) (applyEnrollmentBody be) i
      (fun x => rfl) db.enrollments hw r hr hi
  simp only [applyEnrollmentBody] at key
  rw [update_enrollment, hb]
  simp only [Bool.not_true, Bool.false_eq_true, if_false, key, List.head?_cons,
    applyEnrollmentBody]
  refine ⟨trivial, ?_⟩
  rw [get_enrollment_by_id]
  simp only [key]
  rfl

/-- C4: for every entity, an update whose body has all required fields present
and truthy, on an id with a stored row, returns 200, persists the new field
values, and its updated_data equals the data row of a subsequent get-by-id. -/
theorem C4_update_valid_existing (db : DB) (i : Nat)
    (bd : DaycareBody) (bc : ClassroomBody) (bp : ParentBody) (bch : ChildBody)
    (be : EnrollmentBody) (rd : Daycare) (rc : Classroom) (rp : Parent)
    (rch : Child) (ren : Enrollment)
    (hbd : bd.valid = true) (hbc : bc.valid = true) (hbp : bp.valid = true)
    (hbch : bch.valid = true) (hbe : be.valid = true)
    (hwd : (db.daycares.map (·.id)).Nodup) (hwc : (db.classrooms.map (·.id)).Nodup)
    (hwp : (db.parents.map (·.id)).Nodup) (hwch : (db.children.map (·.id)).Nodup)
    (hwe : (db.enrollments.map (·.id)).Nodup)
    (hrd : rd ∈ db.daycares) (hrc : rc ∈ db.classrooms) (hrp : rp ∈ db.parents)
    (hrch : rch ∈ db.children) (hren : ren ∈ db.enrollments)
    (hid : rd.id = i) (hic : rc.id = i) (hip : rp.id = i) (hich : rch.id = i)
    (hie : ren.id = i) :
    ((update_daycare db i bd).1 = ⟨200, "success", some (applyDaycareBody bd rd)⟩ ∧
      (get_daycare_by_id (update_daycare db i bd).2 i).1 =
        ⟨200, [applyDaycareBody bd rd]⟩) ∧
    ((update_classroom db i bc).1 = ⟨200, "success", some (applyClassroomBody bc rc)⟩ ∧
      (get_classroom_by_id (update_classroom db i bc).2 i).1 =
        ⟨200, [applyClassroomBody bc rc]⟩) ∧
    ((update_parent db i bp).1 = ⟨200, "success", some (applyParentBody bp rp)⟩ ∧
      (get_parent_by_id (update_parent db i bp).2 i).1 =
        ⟨200, [applyParentBody bp rp]⟩) ∧
    ((update_child db i bch).1 = ⟨200, "success", some (applyChildBody bch rch)⟩ ∧
      (get_child_by_id (update_child db i bch).2 i).1 =
        ⟨200, [applyChildBody bch rch]⟩) ∧
    ((update_enrollment db i be).1 = ⟨200, "success", some (applyEnrollmentBody be ren)⟩ ∧
      (get_enrollment_by_id (update_enrollment db i be).2 i).1 =
        ⟨200, [applyEnrollmentBody be ren]⟩) :=
  ⟨update_daycare_ok db i bd rd hbd hwd hrd hid,
   update_classroom_ok db i bc rc hbc hwc hrc hic,
   update_parent_ok db i bp rp hbp hwp hrp hip,
   update_child_ok db i bch rch hbch hwch hrch hich,
   update_enrollment_ok db i be ren hbe hwe hren hie⟩

/-- Concrete daycare body used by the C4 witness. -/
def c4DaycareBody : DaycareBody :=
  ⟨"Bright Future Daycare", "456 Rainbow Rd", "+1 555-999-8888", "contact@brightfuture.com"⟩

/-- Concrete classroom body used by the C4 witness. -/
def c4ClassroomBody : ClassroomBody := ⟨"Preschool B", 2⟩

/-- Concrete parent body used by the C4 witness. -/
def c4ParentBody : ParentBody := ⟨"Alice Johnson", "+1234567890", "alice@example.com"⟩

/-- Concrete child body used by the C4 witness. -/
def c4ChildBody : ChildBody := ⟨"Emily Johnson", "2020-05-12", 2, 1⟩

/-- Concrete enrollment body used by the C4 witness. -/
def c4EnrollmentBody : EnrollmentBody := ⟨2, 3⟩

/-- Seed daycare row with id 1. -/
def seedDaycare1 : Daycare :=
  ⟨1, "Happy Kids Daycare", "123 Rainbow Street", "555-111-2222", "contact@happykids.com"⟩

/-- Seed classroom row with id 1. -/
def seedClassroom1 : Classroom := ⟨1, "Blue Butterflies", some 1⟩

/-- Seed parent row with id 1. -/
def seedParent1 : Parent := ⟨1, "Alice Johnson", "555-123-4567", "alice.johnson@email.com"⟩

/-- Seed child row with id 1. -/
def seedChild1 : Child := ⟨1, "Emily Johnson", "2020-05-12", some 1, some 1⟩

/-- Seed enrollment row with id 1. -/
def seedEnrollment1 : Enrollment := ⟨1, some 1, some 1⟩

/-- Witness for C4 on the seed database at id 1. -/
theorem C4_update_valid_existing_witness :
    ((update_daycare seedDB 1 c4DaycareBody).1 =
        ⟨200, "success", some (applyDaycareBody c4DaycareBody seedDaycare1)⟩ ∧
      (get_daycare_by_id (update_daycare seedDB 1 c4DaycareBody).2 1).1 =
        ⟨200, [applyDaycareBody c4DaycareBody seedDaycare1]⟩) ∧
    ((update_classroom seedDB 1 c4ClassroomBody).1 =
        ⟨200, "success", some (applyClassroomBody c4ClassroomBody seedClassroom1)⟩ ∧
      (get_classroom_by_id (update_classroom seedDB 1 c4ClassroomBody).2 1).1 =
        ⟨200, [applyClassroomBody c4ClassroomBody seedClassroom1]⟩) ∧
    ((update_parent seedDB 1 c4ParentBody).1 =
        ⟨200, "success", some (applyParentBody c4ParentBody seedParent1)⟩ ∧
      (get_parent_by_id (update_parent seedDB 1 c4ParentBody).2 1).1 =
        ⟨200, [applyParentBody c4ParentBody seedParent1]⟩) ∧
    ((update_child seedDB 1 c4ChildBody).1 =
        ⟨200, "success", some (applyChildBody c4ChildBody seedChild1)⟩ ∧
      (get_child_by_id (update_child seedDB 1 c4ChildBody).2 1).1 =
        ⟨200, [applyChildBody c4ChildBody seedChild1]⟩) ∧
    ((update_enrollment seedDB 1 c4EnrollmentBody).1 =
        ⟨200, "success", some (applyEnrollmentBody c4EnrollmentBody seedEnrollment1)⟩ ∧
      (get_enrollment_by_id (update_enrollment seedDB 1 c4EnrollmentBody).2 1).1 =
        ⟨200, [applyEnrollmentBody c4EnrollmentBody seedEnrollment1]⟩) :=
  C4_update_valid_existing seedDB 1 c4DaycareBody c4ClassroomBody c4ParentBody
    c4ChildBody c4EnrollmentBody seedDaycare1 seedClassroom1 seedParent1 seedChild1
    seedEnrollment1 (by decide) (by decide) (by decide) (by decide) (by decide)
    (by decide) (by decide) (by decide) (by decide) (by decide)
    (by decide) (by decide) (by decide) (by decide) (by decide)
    (by decide) (by decide) (by decide) (by decide) (by decide)

/-! Section: Claim C5 -/

/-- C5: after deleting an existing daycare, no classroom and no child row
referencing it remains (cascade delete); after deleting an existing classroom,
the child table keeps the same number of rows, children that referenced the
classroom survive with classroom_id set to null, and the other children
survive unchanged (set-null delete). -/
theorem C5_delete_cascades (db : DB) (did cid : Nat)
    (hd : ∃ d ∈ db.daycares, d.id = did)
    (hc : ∃ c ∈ db.classrooms, c.id = cid) :
    (∀ c ∈ (delete_daycare db did).2.classrooms, c.daycare_id ≠ some did) ∧
    (∀ ch ∈ (delete_daycare db did).2.children, ch.daycare_id ≠ some did) ∧
    ((delete_classroom db cid).2.children.length = db.children.length) ∧
    (∀ ch ∈ db.children, ch.classroom_id = some cid →
      { ch with classroom_id := none } ∈ (delete_classroom db cid).2.children) ∧
    (∀ ch ∈ db.children, ch.classroom_id ≠ some cid →
      ch ∈ (delete_classroom db cid).2.children) := by
  obtain ⟨d0, hd0, hd0i⟩ := hd
  obtain ⟨c0, hc0, hc0i⟩ := hc
  have hlend : ((db.daycares.filter (fun d => d.id == did)).length == 0) = false := by
    have hne : db.daycares.filter (fun d => d.id == did) ≠ [] :=
      List.ne_nil_of_mem (List.mem_filter.2 ⟨hd0, by simp [hd0i]⟩)
    simpa [List.length_eq_zero] using hne
  have hlenc : ((db.classrooms.filter (fun c => c.id == cid)).length == 0) = false := by
    have hne : db.classrooms.filter (fun c => c.id == cid) ≠ [] :=
      List.ne_nil_of_mem (List.mem_filter.2 ⟨hc0, by simp [hc0i]⟩)
    simpa [List.length_eq_zero] using hne
  rw [delete_daycare, delete_classroom]
  simp only [hlend, hlenc, Bool.false_eq_true, if_false]
  refine ⟨?_, ?_, ?_, ?_, ?_⟩
  · intro c hcmem
    have hf := (List.mem_filter.1 hcmem).2
    simpa using hf
  · intro ch hch
    rcases List.mem_map.1 hch with ⟨z, hz, rfl⟩
    have hzd : z.daycare_id ≠ some did := by simpa using (List.mem_filter.1 hz).2
    rcases hzc : z.classroom_id with _ | cidz <;> simp only [hzc]
    · simpa using hzd
    · split <;> simpa using hzd
  · exact List.length_map _ _
  · intro ch hch hcls
    have hfch : (fun c : Child =>
        if c.classroom_id == some cid then { c with classroom_id := none } else c) ch =
        { ch with classroom_id := none } := by
      simp [hcls]
    rw [← hfch]
    exact List.mem_map_of_mem _ hch
  · intro ch hch hcls
    have hfch : (fun c : Child =>
        if c.classroom_id == some cid then { c with classroom_id := none } else c) ch =
        ch := by
      simp only []
      rw [if_neg]
      simp [hcls]
    rw [← hfch]
    exact List.mem_map_of_mem _ hch

/-- Witness for C5 on the seed database: deleting classroom 1 keeps all five
children, and Emily Johnson (child 1, previously in classroom 1) survives with
a null classroom_id. -/
theorem C5_delete_cascades_witness :
    (delete_classroom seedDB 1).2.children.length = seedDB.children.length ∧
    (⟨1, "Emily Johnson", "2020-05-12", none, some 1⟩ : Child) ∈
      (delete_classroom seedDB 1).2.children :=
  have h := C5_delete_cascades seedDB 1 1 (by decide) (by decide)
  ⟨h.2.2.1, h.2.2.2.1 ⟨1, "Emily Johnson", "2020-05-12", some 1, some 1⟩
    (by decide) (by decide)⟩

end PlaySafe
